import Mathlib

/-!
Verification of the voice-noob backend core against its specification.

The Lean definitions below are a shallow embedding of the Python sources:

* `backend/app/services/qa/resilience.py` — retry / circuit-breaker wrapper
  around Claude API calls (tenacity retry decorator applied to a function
  whose body enters an aiobreaker circuit-breaker context);
* `backend/app/services/call_queue.py` — Redis-backed FIFO admission queue;
* `backend/app/services/call_registry.py` — Redis-backed active-call
  registry with shutdown drain loop;
* `backend/app/services/tools/registry.py` and
  `backend/app/services/gpt_realtime.py` — tool dispatch and the
  function-call bridge, plus transcript accumulation;
* `backend/app/api/telephony_ws.py` — transcript persistence.

Machine integers are modelled as `Nat`/`Int`, timestamps as `Nat` seconds,
Python strings as `String` (or `List Char` where character-level stripping
matters), and the Redis store as explicit in-memory state.  Fallible
behaviour of the backing store is an explicit `fail : Bool` parameter where
a claim depends on it.
-/

namespace VoiceNoob

namespace Resilience

/-- State of the aiobreaker `CircuitBreaker` protecting the Claude API
(`claude_circuit_breaker` in resilience.py): closed / open / half-open. -/
inductive CBState
  | closed
  | opened
  | halfOpen
deriving DecidableEq, Repr

/-- The aiobreaker circuit breaker as configured in resilience.py:
`fail_max = ANTHROPIC_CIRCUIT_FAILURE_THRESHOLD`,
`timeout_duration = ANTHROPIC_CIRCUIT_RECOVERY_TIMEOUT`, plus the mutable
failure counter and the time the breaker last opened. -/
structure Breaker where
  state : CBState
  failCounter : Nat
  failMax : Nat
  timeoutDuration : Nat
  openedAt : Nat
deriving DecidableEq, Repr

/-- Outcome of one invocation of the wrapped operation
(`client.messages.create`): success, a transient error (RateLimitError,
APIConnectionError, InternalServerError, httpx.TimeoutException — the
classes listed in `_create_retry_decorator`), or a fatal error (any other
`anthropic.APIError`, not retried). -/
inductive OpOutcome
  | success
  | transientError
  | fatalError
deriving DecidableEq, Repr

/-- Kind of exception propagating out of one execution of the decorated
function body: aiobreaker's CircuitBreakerError, a transient API error, or
a fatal API error. -/
inductive ErrKind
  | circuitOpen
  | transient
  | fatal
deriving DecidableEq, Repr

/-- Result of one execution of the body of `call_claude_with_resilience`
(one tenacity attempt): the breaker afterwards, the exception raised (if
any), whether the wrapped operation was invoked, and whether the breaker
recorded a failure / a success during this body execution. -/
structure BodyStep where
  breaker : Breaker
  err : Option ErrKind
  invoked : Bool
  failRecorded : Bool
  successRecorded : Bool
deriving DecidableEq, Repr

/-- The breaker's failure bookkeeping on an exception leaving the
`async with claude_circuit_breaker` block (aiobreaker's exit handler):
the failure counter is incremented; reaching `fail_max`, or failing the
half-open trial call, opens the breaker and stamps the opening time. -/
def recordFailure (b : Breaker) (now : Nat) (k : ErrKind) : BodyStep :=
  let c := b.failCounter + 1
  let b2 :=
    if b.failMax ≤ c ∨ b.state = CBState.halfOpen then
      { b with state := CBState.opened, failCounter := c, openedAt := now }
    else
      { b with failCounter := c }
  { breaker := b2, err := some k, invoked := true, failRecorded := true,
    successRecorded := false }

/-- Invoking the wrapped operation inside the breaker context.  On success
aiobreaker resets the failure counter and (from half-open) closes the
breaker; on any exception it records a failure (see `recordFailure`). -/
def runOp (b : Breaker) (now : Nat) (op : OpOutcome) : BodyStep :=
  match op with
  | OpOutcome.success =>
      { breaker := { b with state := CBState.closed, failCounter := 0 },
        err := none, invoked := true, failRecorded := false,
        successRecorded := true }
  | OpOutcome.transientError => recordFailure b now ErrKind.transient
  | OpOutcome.fatalError => recordFailure b now ErrKind.fatal

/-- One execution of the body of `call_claude_with_resilience` at time
`now`, when the wrapped operation would produce `op`.

The body's guard `claude_circuit_breaker.current_state == "open"` compares
aiobreaker's `CircuitBreakerState` enum member with a string and is
therefore always false in Python (the repository's own `get_circuit_state`
confirms the enum shape by parsing `str(current_state)` as
"CircuitBreakerState.CLOSED"), so the guard never raises and control
always reaches the breaker context.  Entering the context while the
breaker is open and the recovery timeout has not elapsed raises
CircuitBreakerError without invoking the operation; once the timeout has
elapsed the breaker moves to half-open and allows a trial call. -/
def bodyStep (b : Breaker) (now : Nat) (op : OpOutcome) : BodyStep :=
  match b.state with
  | CBState.opened =>
      if now < b.openedAt + b.timeoutDuration then
        { breaker := b, err := some ErrKind.circuitOpen, invoked := false,
          failRecorded := false, successRecorded := false }
      else
        runOp { b with state := CBState.halfOpen } now op
  | CBState.closed => runOp b now op
  | CBState.halfOpen => runOp b now op

/-- Overall outcome of one resilience-wrapped execute call: success,
rejected by the open circuit, retries exhausted on transient errors
(tenacity stops after `ANTHROPIC_MAX_RETRIES` attempts), or a fatal API
error surfaced without retry. -/
inductive CallOutcome
  | ok
  | circuitOpenError
  | retriesExhausted
  | fatalApiError
deriving DecidableEq, Repr

/-- Aggregate result of one execute call: breaker afterwards, overall
outcome, how often the wrapped operation was invoked, and how many breaker
failures / successes were recorded during the call. -/
structure ExecResult where
  breaker : Breaker
  outcome : CallOutcome
  invocations : Nat
  failuresRecorded : Nat
  successesRecorded : Nat
deriving DecidableEq, Repr

/-- The tenacity retry loop produced by `_create_retry_decorator`: the
decorated body runs up to the given number of attempts; only transient
errors are retried (CircuitBreakerError and fatal API errors are not in
`retry_if_exception_type` and propagate immediately).  `tm i` is the time
of attempt `i` and `op i` the outcome the wrapped operation would have on
attempt `i`. -/
def retryExec (tm : Nat → Nat) (op : Nat → OpOutcome) :
    Breaker → Nat → Nat → ExecResult
  | b, _, 0 =>
      { breaker := b, outcome := CallOutcome.retriesExhausted,
        invocations := 0, failuresRecorded := 0, successesRecorded := 0 }
  | b, attempt, rest + 1 =>
      let s := bodyStep b (tm attempt) (op attempt)
      match s.err with
      | none =>
          { breaker := s.breaker, outcome := CallOutcome.ok,
            invocations := s.invoked.toNat,
            failuresRecorded := s.failRecorded.toNat,
            successesRecorded := s.successRecorded.toNat }
      | some ErrKind.circuitOpen =>
          { breaker := s.breaker, outcome := CallOutcome.circuitOpenError,
            invocations := s.invoked.toNat,
            failuresRecorded := s.failRecorded.toNat,
            successesRecorded := s.successRecorded.toNat }
      | some ErrKind.fatal =>
          { breaker := s.breaker, outcome := CallOutcome.fatalApiError,
            invocations := s.invoked.toNat,
            failuresRecorded := s.failRecorded.toNat,
            successesRecorded := s.successRecorded.toNat }
      | some ErrKind.transient =>
          if rest = 0 then
            { breaker := s.breaker, outcome := CallOutcome.retriesExhausted,
              invocations := s.invoked.toNat,
              failuresRecorded := s.failRecorded.toNat,
              successesRecorded := s.successRecorded.toNat }
          else
            let r := retryExec tm op s.breaker (attempt + 1) rest
            { breaker := r.breaker, outcome := r.outcome,
              invocations := s.invoked.toNat + r.invocations,
              failuresRecorded := s.failRecorded.toNat + r.failuresRecorded,
              successesRecorded := s.successRecorded.toNat + r.successesRecorded }

/-- One call of the decorated `call_claude_with_resilience` with
`stop_after_attempt maxAttempts` (`ANTHROPIC_MAX_RETRIES`, default 3). -/
def executeCall (b : Breaker) (tm : Nat → Nat) (op : Nat → OpOutcome)
    (maxAttempts : Nat) : ExecResult :=
  retryExec tm op b 0 maxAttempts

/-- A sequence of `n` identical execute calls, threading the shared breaker
and summing the wrapped operation's invocation count. -/
def iterateCalls (tm : Nat → Nat) (op : Nat → OpOutcome) (maxAttempts : Nat) :
    Breaker → Nat → Breaker × Nat
  | b, 0 => (b, 0)
  | b, n + 1 =>
      let r := executeCall b tm op maxAttempts
      let rest := iterateCalls tm op maxAttempts r.breaker n
      (rest.1, r.invocations + rest.2)

/-- The breaker as created at module import: closed, zero failures,
`fail_max = 5`, `timeout_duration = 60` (the configuration defaults). -/
def initialClaudeBreaker : Breaker :=
  { state := CBState.closed, failCounter := 0, failMax := 5,
    timeoutDuration := 60, openedAt := 0 }

/-- All attempts happen at time zero. -/
def timeZero : Nat → Nat := fun _ => 0

/-- A wrapped operation that fails transiently on every invocation. -/
def alwaysTransient : Nat → OpOutcome := fun _ => OpOutcome.transientError

/-- A wrapped operation that fails fatally on every invocation. -/
def alwaysFatal : Nat → OpOutcome := fun _ => OpOutcome.fatalError

/-- A breaker that is currently open, for instantiating theorems. -/
def openBreakerExample : Breaker :=
  { state := CBState.opened, failCounter := 5, failMax := 5,
    timeoutDuration := 60, openedAt := 0 }

end Resilience

namespace Queue

/-- A queued call as stored by call_queue.py (`QueuedCall` dataclass):
call id, agent id, optional phone number, enqueue timestamp, priority
(higher = more urgent, unused by the FIFO dequeue), optional metadata. -/
structure QueuedCall where
  call_id : String
  agent_id : String
  phone_number : Option String
  queued_at : Nat
  priority : Int
  metadata : Option (List (String × String))
deriving DecidableEq, Repr

/-- State of the admission queue: the `ENABLE_CALL_QUEUE` flag, the
`MAX_CALL_QUEUE_SIZE` limit, the Redis list at `voicenoob:queue:calls`
(head = left = next to dequeue), and the two monotonic stat counters. -/
structure QueueState where
  enabled : Bool
  maxSize : Nat
  items : List QueuedCall
  totalQueued : Nat
  totalDequeued : Nat
deriving DecidableEq, Repr

/-- The `QueuedCall` value `enqueue_call` constructs from its arguments
(`queued_at = time.time()`). -/
def mkQueuedCall (cid aid : String) (phone : Option String) (prio : Int)
    (md : Option (List (String × String))) (now : Nat) : QueuedCall :=
  { call_id := cid, agent_id := aid, phone_number := phone,
    queued_at := now, priority := prio, metadata := md }

/-- Round trip of a queued call through `json.dumps(c.to_dict())` and
`QueuedCall.from_dict(json.loads(...))` as performed between enqueue and
dequeue.  `from_dict` maps a falsy phone number (absent, null or the empty
string) to None; every other field is restored unchanged. -/
def fromDictToDict (c : QueuedCall) : QueuedCall :=
  { c with phone_number :=
      match c.phone_number with
      | some s => if s = "" then none else some s
      | none => none }

/-- `enqueue_call`: returns false when the feature is disabled; reads
`llen` and rejects with false when the list already holds `maxSize` items
(`queue_size >= MAX_CALL_QUEUE_SIZE`); otherwise `rpush`es the serialized
call and increments the `total_queued` stat, returning true. -/
def enqueueCall (st : QueueState) (cid aid : String) (phone : Option String)
    (prio : Int) (md : Option (List (String × String))) (now : Nat) :
    Bool × QueueState :=
  if st.enabled = false then (false, st)
  else if st.maxSize ≤ st.items.length then (false, st)
  else
    (true,
     { st with items := st.items ++ [mkQueuedCall cid aid phone prio md now],
               totalQueued := st.totalQueued + 1 })

/-- `dequeue_call`: returns None when the feature is disabled or the
`lpop` finds the list empty; otherwise removes the head, increments the
`total_dequeued` stat, and returns the parsed call. -/
def dequeueCall (st : QueueState) : Option QueuedCall × QueueState :=
  if st.enabled = false then (none, st)
  else
    match st.items with
    | [] => (none, st)
    | c :: rest =>
        (some (fromDictToDict c),
         { st with items := rest, totalDequeued := st.totalDequeued + 1 })

/-- Removal of the first list element whose parsed `call_id` matches, as
done by the `lrange` scan plus `lrem` count 1 in `remove_from_queue`. -/
def removeFirstWithId : List QueuedCall → String → List QueuedCall
  | [], _ => []
  | c :: rest, cid =>
      if c.call_id = cid then rest else c :: removeFirstWithId rest cid

/-- `remove_from_queue`: false when disabled; scans the list for the first
item with the given call id, removes it and returns true, or returns false
when no item matches. -/
def removeFromQueue (st : QueueState) (cid : String) : Bool × QueueState :=
  if st.enabled = false then (false, st)
  else if st.items.any (fun c => c.call_id == cid) then
    (true, { st with items := removeFirstWithId st.items cid })
  else (false, st)

/-- `get_queue_depth`: 0 when disabled, otherwise the list length. -/
def getQueueDepth (st : QueueState) : Nat :=
  if st.enabled = false then 0 else st.items.length

/-- One operation of the sequences quantified over by the FIFO claim. -/
inductive QueueOp
  | enq (cid aid : String) (phone : Option String) (prio : Int)
        (md : Option (List (String × String))) (now : Nat)
  | deq
deriving Repr

/-- Result of running a sequence of queue operations: the final state,
the calls returned by the dequeues (in order), and the calls accepted by
the enqueues (in order). -/
structure RunResult where
  state : QueueState
  dequeued : List QueuedCall
  accepted : List QueuedCall
deriving Repr

/-- Runs a sequence of enqueue / dequeue operations, collecting the
dequeue outputs and the accepted enqueues. -/
def runQueue : QueueState → List QueueOp → RunResult
  | st, [] => { state := st, dequeued := [], accepted := [] }
  | st, QueueOp.enq cid aid phone prio md now :: ops =>
      let e := enqueueCall st cid aid phone prio md now
      let r := runQueue e.2 ops
      if e.1 then
        { state := r.state, dequeued := r.dequeued,
          accepted := mkQueuedCall cid aid phone prio md now :: r.accepted }
      else
        { state := r.state, dequeued := r.dequeued, accepted := r.accepted }
  | st, QueueOp.deq :: ops =>
      let d := dequeueCall st
      let r := runQueue d.2 ops
      match d.1 with
      | some c =>
          { state := r.state, dequeued := c :: r.dequeued,
            accepted := r.accepted }
      | none => r

/-- An enabled queue with the given maximum size and nothing queued yet. -/
def initialQueue (maxSize : Nat) : QueueState :=
  { enabled := true, maxSize := maxSize, items := [], totalQueued := 0,
    totalDequeued := 0 }

/-- Enqueue three calls of differing priorities, then dequeue four times
(end-to-end scenario A shape). -/
def demoOps : List QueueOp :=
  [QueueOp.enq "c1" "a" none 0 none 0,
   QueueOp.enq "c2" "a" none 5 none 1,
   QueueOp.enq "c3" "a" none 1 none 2,
   QueueOp.deq, QueueOp.deq, QueueOp.deq, QueueOp.deq]

/-- A full enabled queue of capacity 1, for instantiating theorems. -/
def fullQueueExample : QueueState :=
  { enabled := true, maxSize := 1,
    items := [mkQueuedCall "c1" "a" none 0 none 0],
    totalQueued := 1, totalDequeued := 0 }

end Queue

namespace Registry

/-- One Redis hash stored at `voicenoob:calls:{call_id}`: its field map
and the TTL set by `expire`. -/
structure RegEntry where
  fields : List (String × String)
  ttl : Nat
deriving DecidableEq, Repr

/-- State of the call registry: the `ENABLE_CALL_REGISTRY` flag and the
Redis hashes under the `voicenoob:calls:` prefix, keyed here by call id
(the key prefix is injective and no other component writes keys matching
the `voicenoob:calls:*` scan pattern). -/
structure RegistryState where
  enabled : Bool
  store : List (String × RegEntry)
deriving DecidableEq, Repr

/-- Redis `hset`: fields in `upd` overwrite same-named fields of the
existing hash; other existing fields persist. -/
def hsetMerge (old upd : List (String × String)) : List (String × String) :=
  old.filter (fun kv => !(upd.any (fun kv2 => kv2.1 == kv.1))) ++ upd

/-- Lookup of the hash stored for a call id. -/
def lookupEntry (st : RegistryState) (cid : String) : Option RegEntry :=
  (st.store.find? (fun kv => kv.1 == cid)).map (fun kv => kv.2)

/-- Redis `hget`: the value stored under field `k` of a hash. -/
def findField (l : List (String × String)) (k : String) : Option String :=
  (l.find? (fun kv => kv.1 == k)).map (fun kv => kv.2)

/-- Replaces the entry stored under `cid` (or appends a new one). -/
def setEntry : List (String × RegEntry) → String → RegEntry →
    List (String × RegEntry)
  | [], cid, e => [(cid, e)]
  | (k, e0) :: rest, cid, e =>
      if k = cid then (cid, e) :: rest else (k, e0) :: setEntry rest cid e

/-- Redis `delete` of the key for `cid`. -/
def eraseKey : List (String × RegEntry) → String → List (String × RegEntry)
  | [], _ => []
  | (k, e) :: rest, cid =>
      if k = cid then rest else (k, e) :: eraseKey rest cid

/-- The field map `register_call` writes: call id, agent id, stringified
start time, phone number (empty string when absent), and the metadata
pairs under `meta:`-prefixed field names (skipped when the metadata dict
is absent or empty, which writes no `meta:` field either way). -/
def registerFields (cid aid : String) (phone : Option String) (now : Nat)
    (md : Option (List (String × String))) : List (String × String) :=
  [("call_id", cid), ("agent_id", aid), ("started_at", toString now),
   ("phone_number", phone.getD "")]
    ++ (md.getD []).map (fun kv => ("meta:" ++ kv.1, kv.2))

/-- `register_call`: returns true immediately when the registry feature is
disabled; on a backing-store failure the exception is caught, logged and
turned into a false return (the function never raises — it is total here);
otherwise it `hset`s the field map into the hash for `call_id` (creating
or overwriting fields) and `expire`s the key to `CALL_REGISTRY_TTL`,
returning true. -/
def registerCall (st : RegistryState) (cid aid : String)
    (phone : Option String) (md : Option (List (String × String)))
    (now : Nat) (ttlCfg : Nat) (fail : Bool) : Bool × RegistryState :=
  if st.enabled = false then (true, st)
  else if fail then (false, st)
  else
    let callData := registerFields cid aid phone now md
    let newFields :=
      match lookupEntry st cid with
      | some e => hsetMerge e.fields callData
      | none => callData
    (true, { st with store := setEntry st.store cid ⟨newFields, ttlCfg⟩ })

/-- `unregister_call`: true when the feature is disabled; false when the
backing store fails (exception caught); otherwise deletes the key and
returns true whether or not a record was deleted (a missing record is
only logged). -/
def unregisterCall (st : RegistryState) (cid : String) (fail : Bool) :
    Bool × RegistryState :=
  if st.enabled = false then (true, st)
  else if fail then (false, st)
  else (true, { st with store := eraseKey st.store cid })

/-- `get_call_count`: 0 when the feature is disabled or the store fails,
otherwise the number of keys matching the `voicenoob:calls:*` scan. -/
def getCallCount (st : RegistryState) (fail : Bool) : Nat :=
  if st.enabled = false then 0
  else if fail then 0
  else st.store.length

/-- The `drain_timeout or SHUTDOWN_DRAIN_TIMEOUT` computation in
`wait_for_calls_to_drain`: Python's `or` falls back to the default when
the argument is absent or equals 0 (0 is falsy). -/
def effectiveTimeout (drainTimeout : Option Int) (dflt : Int) : Int :=
  match drainTimeout with
  | none => dflt
  | some t => if t = 0 then dflt else t

/-- The polling loop of `wait_for_calls_to_drain`: while the elapsed whole
seconds `k` are below the timeout, poll `get_call_count` at second `k`
(`counts k`); return true at the first zero count, without the trailing
1-second sleep; otherwise sleep 1s and continue; return false once the
window is exhausted.  The result pairs the return value with the number of
1-second sleeps performed, which equals the elapsed polling time. -/
def drainLoop (counts : Nat → Nat) : Nat → Nat → Bool × Nat
  | _, 0 => (false, 0)
  | k, fuel + 1 =>
      if counts k = 0 then (true, 0)
      else
        let r := drainLoop counts (k + 1) fuel
        (r.1, r.2 + 1)

/-- `wait_for_calls_to_drain(drain_timeout)`: immediately true when the
registry feature is disabled; otherwise runs the 1-second polling loop for
the effective timeout (default `SHUTDOWN_DRAIN_TIMEOUT`). -/
def waitForCallsToDrain (enabled : Bool) (dflt : Int)
    (drainTimeout : Option Int) (counts : Nat → Nat) : Bool × Nat :=
  if enabled = false then (true, 0)
  else drainLoop counts 0 (effectiveTimeout drainTimeout dflt).toNat

/-- A registry holding one active call. -/
def registryExample : RegistryState :=
  { enabled := true,
    store := [("call-1", { fields := [("call_id", "call-1"), ("agent_id", "a1")], ttl := 1800 })] }

end Registry

namespace Tools

/-- Tool arguments, a JSON object treated abstractly as key/value pairs. -/
abbrev ToolArgs : Type := List (String × String)

/-- Structured tool result: the `success` flag and the `error` message the
dispatcher puts in its result dict (other payload fields are not relevant
to dispatch). -/
structure ToolResult where
  success : Bool
  error : Option String
deriving DecidableEq, Repr

/-- The `crm_tool_names` set in `ToolRegistry.execute_tool`. -/
def crmToolNames : List String :=
  ["search_customer", "create_contact", "check_availability",
   "book_appointment", "list_appointments", "cancel_appointment",
   "reschedule_appointment"]

/-- `ToolRegistry.execute_tool`: a name in the CRM capability set is
routed to the CRM handler (`crmExec`, an external collaborator); any other
name yields the structured `success: false` result with an "Unknown tool"
error message — no exception is raised. -/
def executeTool (crmExec : String → ToolArgs → ToolResult) (name : String)
    (args : ToolArgs) : ToolResult :=
  if crmToolNames.contains name then crmExec name args
  else { success := false, error := some ("Unknown tool: " ++ name) }

/-- `GPTRealtimeSession.handle_tool_call`: a structured failure when the
tool registry was never initialized, otherwise dispatch through the
registry. -/
def handleToolCall (crmExec : String → ToolArgs → ToolResult)
    (hasRegistry : Bool) (name : String) (args : ToolArgs) : ToolResult :=
  if hasRegistry = false then
    { success := false, error := some "Tool registry not initialized" }
  else executeTool crmExec name args

/-- A `response.function_call_arguments.done` event: the provider call id
of the function call, the tool name, and the parsed arguments. -/
structure FunctionCallEvent where
  call_id : String
  name : String
  arguments : ToolArgs

/-- The conversation item `handle_function_call_event` creates:
`{"type": "function_call_output", "call_id": ..., "output": json of the
tool result}` (JSON serialization of the result abstracted away). -/
structure FunctionCallOutputItem where
  itemType : String
  call_id : String
  output : ToolResult
deriving DecidableEq, Repr

/-- `GPTRealtimeSession.handle_function_call_event`: executes the tool via
`handle_tool_call` and, when the realtime connection is present, sends the
result back into the AI session as a function-call-output item. -/
def handleFunctionCallEvent (crmExec : String → ToolArgs → ToolResult)
    (hasRegistry : Bool) (connection : Bool) (ev : FunctionCallEvent) :
    ToolResult × Option FunctionCallOutputItem :=
  let result := handleToolCall crmExec hasRegistry ev.name ev.arguments
  (result,
   if connection then
     some { itemType := "function_call_output", call_id := ev.call_id,
            output := result }
   else none)

/-- A function-call event naming a tool outside the capability set. -/
def unknownToolEvent : FunctionCallEvent :=
  { call_id := "call-9", name := "frobnicate", arguments := [] }

/-- A CRM handler stub standing in for the external collaborator. -/
def crmStub : String → ToolArgs → ToolResult :=
  fun _ _ => { success := true, error := none }

end Tools

namespace Transcript

/-- Python's `str.strip()` whitespace test (the ASCII whitespace
characters; the further Unicode whitespace Python also strips does not
affect the claims). -/
def isPySpace (c : Char) : Bool :=
  c == ' ' || c == '\t' || c == '\n' || c == '\r' || c == '\x0b' || c == '\x0c'

/-- Python's `str.strip()` over a string modelled as a character list:
drop whitespace from the front and from the back. -/
def pyStrip (s : List Char) : List Char :=
  ((s.dropWhile isPySpace).reverse.dropWhile isPySpace).reverse

/-- One entry of the session's transcript buffer (`TranscriptEntry`):
role ("user" or "assistant") and content; the timestamp is irrelevant to
the invariant and omitted. -/
structure TEntry where
  role : String
  content : List Char
deriving DecidableEq, Repr

/-- The transcript-relevant state of a `GPTRealtimeSession`: the entry
buffer `_transcript_entries` and the accumulating assistant-text buffer
`_current_assistant_text`. -/
structure TranscriptState where
  entries : List TEntry
  currentAssistantText : List Char
deriving DecidableEq, Repr

/-- `add_user_transcript`: appends a "user" entry holding the stripped
text when the stripped text is non-empty (`if text.strip():`), otherwise
drops the text. -/
def addUserTranscript (s : TranscriptState) (t : List Char) :
    TranscriptState :=
  if (pyStrip t).isEmpty then s
  else { s with entries := s.entries ++ [{ role := "user", content := pyStrip t }] }

/-- `add_assistant_transcript`: same as `add_user_transcript` with role
"assistant". -/
def addAssistantTranscript (s : TranscriptState) (t : List Char) :
    TranscriptState :=
  if (pyStrip t).isEmpty then s
  else { s with entries := s.entries ++ [{ role := "assistant", content := pyStrip t }] }

/-- `accumulate_assistant_text`: appends the delta to the accumulating
buffer. -/
def accumulateAssistantText (s : TranscriptState) (d : List Char) :
    TranscriptState :=
  { s with currentAssistantText := s.currentAssistantText ++ d }

/-- `flush_assistant_text`: when the accumulated text is non-blank, append
it via `add_assistant_transcript`; in every case reset the accumulating
buffer to the empty string. -/
def flushAssistantText (s : TranscriptState) : TranscriptState :=
  let s1 :=
    if (pyStrip s.currentAssistantText).isEmpty then s
    else addAssistantTranscript s s.currentAssistantText
  { s1 with currentAssistantText := [] }

/-- The transcript operations a session performs. -/
inductive TranscriptOp
  | addUser (t : List Char)
  | addAssistant (t : List Char)
  | accumulate (d : List Char)
  | flush

/-- Applies one transcript operation. -/
def applyTranscriptOp (s : TranscriptState) : TranscriptOp → TranscriptState
  | TranscriptOp.addUser t => addUserTranscript s t
  | TranscriptOp.addAssistant t => addAssistantTranscript s t
  | TranscriptOp.accumulate d => accumulateAssistantText s d
  | TranscriptOp.flush => flushAssistantText s

/-- The claimed invariant: every buffered entry has non-empty content that
is already whitespace-stripped. -/
def TranscriptInv (s : TranscriptState) : Prop :=
  ∀ e ∈ s.entries, e.content ≠ [] ∧ pyStrip e.content = e.content

instance (s : TranscriptState) : Decidable (TranscriptInv s) := by
  unfold TranscriptInv
  infer_instance

/-- A fresh session: no entries, empty accumulating buffer. -/
def initialTranscript : TranscriptState :=
  { entries := [], currentAssistantText := [] }

/-- A call record as touched by `save_transcript_to_call_record`: its id,
its provider call id, and its stored transcript. -/
structure CallRecord where
  recordId : Nat
  provider_call_id : String
  transcript : Option (List Char)
deriving DecidableEq, Repr

/-- What `save_transcript_to_call_record` did. -/
inductive SaveOutcome
  | skippedEmpty
  | saved
  | recordNotFound
deriving DecidableEq, Repr

/-- Result of `save_transcript_to_call_record`: the call records
afterwards, what happened, and how many database lookups were issued. -/
structure SaveResult where
  records : List CallRecord
  outcome : SaveOutcome
  lookups : Nat
deriving DecidableEq, Repr

/-- Sets the transcript of the record matching the provider call id. -/
def setRecordTranscript : List CallRecord → String → List Char →
    List CallRecord
  | [], _, _ => []
  | r :: rest, sid, t =>
      if r.provider_call_id = sid then { r with transcript := some t } :: rest
      else r :: setRecordTranscript rest sid t

/-- `save_transcript_to_call_record`: when the formatted transcript is
empty or whitespace-only (`if not transcript.strip():`) it returns before
any database access; otherwise it looks the call record up by provider
call id and, when found, overwrites its transcript and commits. -/
def saveTranscriptToCallRecord (records : List CallRecord) (callSid : String)
    (transcript : List Char) : SaveResult :=
  if (pyStrip transcript).isEmpty then
    { records := records, outcome := SaveOutcome.skippedEmpty, lookups := 0 }
  else
    match records.find? (fun r => r.provider_call_id == callSid) with
    | some _ =>
        { records := setRecordTranscript records callSid transcript,
          outcome := SaveOutcome.saved, lookups := 1 }
    | none =>
        { records := records, outcome := SaveOutcome.recordNotFound,
          lookups := 1 }

/-- One stored call record with an existing transcript. -/
def callRecordsExample : List CallRecord :=
  [{ recordId := 1, provider_call_id := "CA1", transcript := some ['o', 'l', 'd'] }]

end Transcript

end VoiceNoob

namespace VoiceNoob

namespace Resilience

/-- Every body execution either leaves the breaker untouched (circuit
open, operation not invoked) or invokes the operation and records exactly
one breaker failure or one breaker success. -/
theorem bodyStep_counts (b : Breaker) (now : Nat) (op : OpOutcome) :
    (bodyStep b now op).failRecorded.toNat
      + (bodyStep b now op).successRecorded.toNat
      = (bodyStep b now op).invoked.toNat := by
  cases hb : b.state <;> cases op <;>
    simp [bodyStep, hb, runOp, recordFailure] <;> split <;> simp

/-- Across the tenacity retry loop, the number of breaker updates equals
the number of invocations of the wrapped operation. -/
theorem retryExec_counts (tm : Nat → Nat) (op : Nat → OpOutcome) :
    ∀ (rest : Nat) (b : Breaker) (attempt : Nat),
      (retryExec tm op b attempt rest).failuresRecorded
        + (retryExec tm op b attempt rest).successesRecorded
        = (retryExec tm op b attempt rest).invocations := by
  intro rest
  induction rest with
  | zero => intro b attempt; rfl
  | succ n ih =>
    intro b attempt
    have hs := bodyStep_counts b (tm attempt) (op attempt)
    simp only [retryExec]
    rcases he : (bodyStep b (tm attempt) (op attempt)).err with _ | k
    · simpa [he] using hs
    · cases k
      · simpa [he] using hs
      · rcases Nat.eq_zero_or_pos n with hn | hn
        · subst hn; simpa [he] using hs
        · have hn0 : ¬ n = 0 := by omega
          have ihb := ih (bodyStep b (tm attempt) (op attempt)).breaker (attempt + 1)
          simp only [he, hn0, if_false]
          omega
      · simpa [he] using hs

/-- C1 counterexample: with the breaker closed and a wrapped operation
failing transiently on every attempt, a single execute call under the
default `ANTHROPIC_MAX_RETRIES = 3` invokes the operation three times and
records three breaker failures — the breaker is updated per internal retry
attempt, not exactly once for the call's overall outcome. -/
theorem c1_counterexample_per_attempt :
    (executeCall initialClaudeBreaker timeZero alwaysTransient 3).failuresRecorded = 3 ∧
    (executeCall initialClaudeBreaker timeZero alwaysTransient 3).invocations = 3 ∧
    (executeCall initialClaudeBreaker timeZero alwaysTransient 3).failuresRecorded ≠ 1 := by
  decide

/-- C1 (amended): the circuit breaker is updated once per internal retry
attempt that reaches the wrapped operation — each failed invocation
records one breaker failure and each successful invocation one breaker
success, so across any execute call the recorded failures and successes
sum to the invocation count; in particular one execute call whose three
attempts all fail transiently records three breaker failures rather than
one. -/
theorem c1_breaker_updated_per_attempt :
    (∀ (b : Breaker) (tm : Nat → Nat) (op : Nat → OpOutcome) (R : Nat),
        (executeCall b tm op R).failuresRecorded
          + (executeCall b tm op R).successesRecorded
          = (executeCall b tm op R).invocations) ∧
    (executeCall initialClaudeBreaker timeZero alwaysTransient 3).failuresRecorded = 3 := by
  refine ⟨fun b tm op R => ?_, by decide⟩
  exact retryExec_counts tm op R b 0

/-- C2: while the breaker is open and its recovery timeout has not
elapsed, an execute call fails with the circuit-open error without
invoking the wrapped operation and without changing the breaker; and in
the concrete end-to-end scenario, five consecutive failing execute calls
against the default breaker (failure threshold 5) leave the breaker open
after exactly five invocations of the wrapped operation, and a sixth call
is rejected with the circuit-open error adding no invocation. -/
theorem c2_open_circuit_fails_fast :
    (∀ (b : Breaker) (tm : Nat → Nat) (op : Nat → OpOutcome) (R : Nat),
        b.state = CBState.opened →
        tm 0 < b.openedAt + b.timeoutDuration →
        1 ≤ R →
        (executeCall b tm op R).outcome = CallOutcome.circuitOpenError ∧
        (executeCall b tm op R).invocations = 0 ∧
        (executeCall b tm op R).breaker = b) ∧
    ((iterateCalls timeZero alwaysFatal 3 initialClaudeBreaker 5).1.state
        = CBState.opened ∧
     (iterateCalls timeZero alwaysFatal 3 initialClaudeBreaker 5).2 = 5 ∧
     (executeCall (iterateCalls timeZero alwaysFatal 3 initialClaudeBreaker 5).1
        timeZero alwaysFatal 3).invocations = 0 ∧
     (executeCall (iterateCalls timeZero alwaysFatal 3 initialClaudeBreaker 5).1
        timeZero alwaysFatal 3).outcome = CallOutcome.circuitOpenError) := by
  constructor
  · intro b tm op R hstate htime hR
    obtain ⟨r, rfl⟩ : ∃ r, R = r + 1 := ⟨R - 1, by omega⟩
    simp [executeCall, retryExec, bodyStep, hstate, htime]
  · decide

/-- C2 witness: the fail-fast statement instantiated at a concrete open
breaker whose recovery timeout has not elapsed. -/
theorem c2_open_circuit_fails_fast_witness :
    (executeCall openBreakerExample timeZero alwaysFatal 3).outcome
        = CallOutcome.circuitOpenError ∧
    (executeCall openBreakerExample timeZero alwaysFatal 3).invocations = 0 ∧
    (executeCall openBreakerExample timeZero alwaysFatal 3).breaker
        = openBreakerExample :=
  c2_open_circuit_fails_fast.1 openBreakerExample timeZero alwaysFatal 3
    rfl (by decide) (by decide)

end Resilience

namespace Queue

/-- Enqueue never changes the enable flag. -/
theorem enqueueCall_enabled (st : QueueState) (cid aid : String)
    (phone : Option String) (prio : Int)
    (md : Option (List (String × String))) (now : Nat) :
    (enqueueCall st cid aid phone prio md now).2.enabled = st.enabled := by
  unfold enqueueCall
  split
  · rfl
  · split
    · rfl
    · rfl

/-- Dequeue never changes the enable flag. -/
theorem dequeueCall_enabled (st : QueueState) :
    (dequeueCall st).2.enabled = st.enabled := by
  unfold dequeueCall
  split
  · rfl
  · split <;> rfl

/-- Dequeue never changes the configured maximum size. -/
theorem dequeueCall_maxSize (st : QueueState) :
    (dequeueCall st).2.maxSize = st.maxSize := by
  unfold dequeueCall
  split
  · rfl
  · split <;> rfl

/-- Removal never changes the enable flag. -/
theorem removeFromQueue_enabled (st : QueueState) (cid : String) :
    (removeFromQueue st cid).2.enabled = st.enabled := by
  unfold removeFromQueue
  split
  · rfl
  · split <;> rfl

/-- Removal never changes the configured maximum size. -/
theorem removeFromQueue_maxSize (st : QueueState) (cid : String) :
    (removeFromQueue st cid).2.maxSize = st.maxSize := by
  unfold removeFromQueue
  split
  · rfl
  · split <;> rfl

/-- On an enabled queue with free capacity, enqueue succeeds. -/
theorem enqueueCall_succeeds (st : QueueState) (cid aid : String)
    (phone : Option String) (prio : Int)
    (md : Option (List (String × String))) (now : Nat)
    (h : st.enabled = true) (hlt : st.items.length < st.maxSize) :
    (enqueueCall st cid aid phone prio md now).1 = true := by
  simp [enqueueCall, h, Nat.not_le.mpr hlt]

/-- Running any operation sequence on an enabled queue, the dequeued calls
followed by the parsed remaining items are exactly the accepted enqueues
in order. -/
theorem runQueue_spec (ops : List QueueOp) :
    ∀ st : QueueState, st.enabled = true →
      (runQueue st ops).dequeued
          ++ ((runQueue st ops).state.items.map fromDictToDict)
        = st.items.map fromDictToDict
          ++ ((runQueue st ops).accepted.map fromDictToDict) := by
  induction ops with
  | nil => intro st _; simp [runQueue]
  | cons op ops ih =>
    intro st h
    cases op with
    | enq cid aid phone prio md now =>
      by_cases hfull : st.maxSize ≤ st.items.length
      · have hrun : enqueueCall st cid aid phone prio md now = (false, st) := by
          simp [enqueueCall, h, hfull]
        simp only [runQueue, hrun]
        simpa using ih st h
      · have hrun : enqueueCall st cid aid phone prio md now
            = (true, { st with
                items := st.items ++ [mkQueuedCall cid aid phone prio md now],
                totalQueued := st.totalQueued + 1 }) := by
          simp [enqueueCall, h, hfull]
        simp only [runQueue, hrun]
        have ih2 := ih ({ st with items := st.items ++ [mkQueuedCall cid aid phone prio md now], totalQueued := st.totalQueued + 1 }) h
        simp only [List.map_append] at ih2
        simp [ih2]
    | deq =>
      cases hitems : st.items with
      | nil =>
        have hrun : dequeueCall st = (none, st) := by
          simp [dequeueCall, h, hitems]
        simp only [runQueue, hrun]
        simpa [hitems] using ih st h
      | cons c rest =>
        have hrun : dequeueCall st
            = (some (fromDictToDict c),
               { st with items := rest, totalDequeued := st.totalDequeued + 1 }) := by
          simp [dequeueCall, h, hitems]
        simp only [runQueue, hrun]
        have ih2 := ih ({ st with items := rest, totalDequeued := st.totalDequeued + 1 }) h
        simp [hitems, ih2]

/-- C3: on an enabled queue starting empty, the calls returned by dequeue
are exactly the accepted enqueued calls in enqueue order (the remaining
items continue that order), for every operation sequence and regardless of
the priority values carried; and dequeue on an empty queue returns
empty. -/
theorem c3_queue_strict_fifo :
    (∀ (M : Nat) (ops : List QueueOp),
        (runQueue (initialQueue M) ops).dequeued
            ++ ((runQueue (initialQueue M) ops).state.items.map fromDictToDict)
          = (runQueue (initialQueue M) ops).accepted.map fromDictToDict) ∧
    (∀ st : QueueState, st.items = [] → (dequeueCall st).1 = none) := by
  constructor
  · intro M ops
    simpa [initialQueue] using runQueue_spec ops (initialQueue M) rfl
  · intro st hempty
    unfold dequeueCall
    split
    · rfl
    · simp [hempty]


/-- C3 witness: the FIFO statement instantiated on a concrete operation
sequence with mixed priorities, and an empty dequeue on a fresh queue. -/
theorem c3_queue_strict_fifo_witness :
    ((runQueue (initialQueue 10) demoOps).dequeued
        ++ ((runQueue (initialQueue 10) demoOps).state.items.map fromDictToDict)
      = (runQueue (initialQueue 10) demoOps).accepted.map fromDictToDict) ∧
    (dequeueCall (initialQueue 10)).1 = none :=
  ⟨c3_queue_strict_fifo.1 10 demoOps,
   c3_queue_strict_fifo.2 (initialQueue 10) rfl⟩

/-- C4: on an enabled queue whose depth does not exceed the configured
maximum, enqueue returns false exactly when the depth equals the maximum
size at the time of the call, and after a dequeue or a removal that leaves
the depth below the maximum a subsequent enqueue returns true. -/
theorem c4_enqueue_full_boundary :
    ∀ (st : QueueState) (cid aid : String) (phone : Option String)
      (prio : Int) (md : Option (List (String × String))) (now : Nat),
      st.enabled = true →
      st.items.length ≤ st.maxSize →
      (((enqueueCall st cid aid phone prio md now).1 = false
          ↔ st.items.length = st.maxSize) ∧
       ((dequeueCall st).2.items.length < st.maxSize →
          (enqueueCall (dequeueCall st).2 cid aid phone prio md now).1 = true) ∧
       (∀ rid : String,
          (removeFromQueue st rid).2.items.length < st.maxSize →
          (enqueueCall (removeFromQueue st rid).2 cid aid phone prio md now).1
            = true)) := by
  intro st cid aid phone prio md now h hle
  refine ⟨?_, ?_, ?_⟩
  · by_cases hfull : st.maxSize ≤ st.items.length <;>
      simp [enqueueCall, h, hfull] <;> omega
  · intro hlt
    exact enqueueCall_succeeds _ cid aid phone prio md now
      (by rw [dequeueCall_enabled]; exact h)
      (by rw [dequeueCall_maxSize]; exact hlt)
  · intro rid hlt
    exact enqueueCall_succeeds _ cid aid phone prio md now
      (by rw [removeFromQueue_enabled]; exact h)
      (by rw [removeFromQueue_maxSize]; exact hlt)


/-- C4 witness: on a full queue of capacity 1, enqueue returns false, and
after dequeuing (or removing) the one queued call, enqueue succeeds. -/
theorem c4_enqueue_full_boundary_witness :
    ((enqueueCall fullQueueExample "c2" "a" none 0 none 1).1 = false
        ↔ fullQueueExample.items.length = fullQueueExample.maxSize) ∧
    ((dequeueCall fullQueueExample).2.items.length < fullQueueExample.maxSize →
        (enqueueCall (dequeueCall fullQueueExample).2 "c2" "a" none 0 none 1).1
          = true) ∧
    (∀ rid : String,
        (removeFromQueue fullQueueExample rid).2.items.length
            < fullQueueExample.maxSize →
        (enqueueCall (removeFromQueue fullQueueExample rid).2
            "c2" "a" none 0 none 1).1 = true) :=
  c4_enqueue_full_boundary fullQueueExample "c2" "a" none 0 none 1
    rfl (by decide)

end Queue

namespace Registry

/-- While every poll sees a non-zero count, the drain loop runs its whole
window and reports failure after one sleep per iteration. -/
theorem drainLoop_busy (counts : Nat → Nat) (hbusy : ∀ k, counts k ≠ 0) :
    ∀ (fuel k : Nat), drainLoop counts k fuel = (false, fuel) := by
  intro fuel
  induction fuel with
  | zero => intro k; rfl
  | succ n ih => intro k; simp [drainLoop, hbusy k, ih (k + 1)]

/-- C5 counterexample: called with timeout value 0, the drain wait does
not poll for approximately 0 seconds — Python's `drain_timeout or
SHUTDOWN_DRAIN_TIMEOUT` treats 0 as falsy, so with at least one call
registered throughout the function returns false only after the full
default window of 120 one-second sleeps. -/
theorem c5_counterexample_zero_timeout :
    waitForCallsToDrain true 120 (some 0) (fun _ => 1) = (false, 120) ∧
    (waitForCallsToDrain true 120 (some 0) (fun _ => 1)).2 ≠ 0 := by
  have h := drainLoop_busy (fun _ => 1) (fun _ => by simp) 120 0
  constructor
  · simpa [waitForCallsToDrain, effectiveTimeout] using h
  · have h2 : waitForCallsToDrain true 120 (some 0) (fun _ => 1) = (false, 120) := by
      simpa [waitForCallsToDrain, effectiveTimeout] using h
    simp [h2]

/-- C5 (amended): for every timeout value T ≥ 1 (a timeout of 0, like an
absent one, falls back to the default drain window), the drain wait
returns true immediately — before any sleep — when the active-call count
is zero at the first poll, and returns false after T one-second polling
sleeps when at least one call remains registered throughout the
window. -/
theorem c5_wait_for_drain (T : Int) (counts : Nat → Nat) (hT : 1 ≤ T) :
    (counts 0 = 0 → waitForCallsToDrain true 120 (some T) counts = (true, 0)) ∧
    ((∀ k, counts k ≠ 0) →
        waitForCallsToDrain true 120 (some T) counts = (false, T.toNat)) := by
  have hT0 : ¬ (T = 0) := by omega
  have heff : effectiveTimeout (some T) 120 = T := by
    simp [effectiveTimeout, hT0]
  obtain ⟨n, hn⟩ : ∃ n, T.toNat = n + 1 := ⟨T.toNat - 1, by omega⟩
  constructor
  · intro h0
    simp [waitForCallsToDrain, heff, hn, drainLoop, h0]
  · intro hbusy
    simp [waitForCallsToDrain, heff, drainLoop_busy counts hbusy]

/-- C5 witness: with timeout 2 and a zero count at the first poll, the
drain wait returns true with zero sleeps. -/
theorem c5_wait_for_drain_witness :
    waitForCallsToDrain true 120 (some 2) (fun _ => 0) = (true, 0) :=
  (c5_wait_for_drain 2 (fun _ => 0) (by decide)).1 rfl

/-- Deleting a key that no stored pair carries leaves the store as is. -/
theorem eraseKey_of_absent :
    ∀ (s : List (String × RegEntry)) (cid : String),
      (∀ kv ∈ s, kv.1 ≠ cid) → eraseKey s cid = s := by
  intro s
  induction s with
  | nil => intro cid _; rfl
  | cons kv rest ih =>
    intro cid h
    obtain ⟨k, e⟩ := kv
    have hk : k ≠ cid := h (k, e) (List.mem_cons_self _ _)
    simp [eraseKey, hk, ih cid (fun kv2 hkv2 => h kv2 (List.mem_cons_of_mem _ hkv2))]

/-- C6: unregistering a call id that is not present in the registry
returns true (not-found is not an error) and leaves the registry state —
and hence the active-call count — unchanged. -/
theorem c6_unregister_unknown_id (st : RegistryState) (cid : String)
    (habsent : ∀ kv ∈ st.store, kv.1 ≠ cid) :
    unregisterCall st cid false = (true, st) ∧
    getCallCount (unregisterCall st cid false).2 false = getCallCount st false := by
  have heq : unregisterCall st cid false = (true, st) := by
    obtain ⟨en, sstore⟩ := st
    by_cases he : en = false
    · simp [unregisterCall, he]
    · simp only [List.mem_cons] at habsent
      simp [unregisterCall, he,
        eraseKey_of_absent sstore cid (by simpa using habsent)]
  exact ⟨heq, by rw [heq]⟩


/-- C6 witness: unregistering an unknown id on a concrete one-call
registry returns true and keeps the count at 1. -/
theorem c6_unregister_unknown_id_witness :
    unregisterCall registryExample "call-2" false = (true, registryExample) ∧
    getCallCount (unregisterCall registryExample "call-2" false).2 false
      = getCallCount registryExample false :=
  c6_unregister_unknown_id registryExample "call-2" (by decide)

/-- A `find?` over an append skips a left part none of whose elements
satisfies the predicate. -/
theorem find?_append_left_none {α : Type} (p : α → Bool) :
    ∀ (l m : List α), (∀ x ∈ l, p x = false) → (l ++ m).find? p = m.find? p := by
  intro l
  induction l with
  | nil => intro m _; rfl
  | cons a rest ih =>
    intro m h
    have ha : p a = false := h a (List.mem_cons_self _ _)
    simp [List.find?, ha, ih m (fun x hx => h x (List.mem_cons_of_mem _ hx))]

/-- After `hset`, a field written by the update reads back from the
update, not from the stale hash. -/
theorem findField_hsetMerge (old upd : List (String × String)) (k : String)
    (hk : upd.any (fun kv => kv.1 == k) = true) :
    findField (hsetMerge old upd) k = findField upd k := by
  unfold findField hsetMerge
  rw [find?_append_left_none]
  intro x hx
  rcases List.mem_filter.mp hx with ⟨_, hxkeep⟩
  by_cases hxk : x.1 == k
  · exfalso
    rcases List.any_eq_true.mp hk with ⟨y, hy, hyk⟩
    have hxy : (y.1 == x.1) = true := by
      have h1 : y.1 = k := by simpa using hyk
      have h2 : x.1 = k := by simpa using hxk
      simp [h1, h2]
    have : upd.any (fun kv2 => kv2.1 == x.1) = true :=
      List.any_eq_true.mpr ⟨y, hy, hxy⟩
    simp [this] at hxkeep
  · simpa using hxk

/-- Looking up the key just written by `setEntry` yields the new entry. -/
theorem find?_setEntry (cid : String) (e : RegEntry) :
    ∀ s : List (String × RegEntry),
      (setEntry s cid e).find? (fun kv => kv.1 == cid) = some (cid, e) := by
  intro s
  induction s with
  | nil => simp [setEntry, List.find?]
  | cons kv rest ih =>
    obtain ⟨k, e0⟩ := kv
    by_cases hk : k = cid
    · simp [setEntry, hk, List.find?]
    · simp [setEntry, hk, List.find?, ih]

/-- The freshly written register fields resolve `agent_id` to the new
agent id. -/
theorem findField_registerFields (cid aid : String) (phone : Option String)
    (now : Nat) (md : Option (List (String × String))) :
    findField (registerFields cid aid phone now md) "agent_id" = some aid := by
  have h1 : ("call_id" == "agent_id") = false := by decide
  simp [findField, registerFields, List.find?, h1]

/-- C7: register returns false only when the backing store fails — with a
healthy store it returns true for every input, including re-registration
of an id already present, in which case the stored record's TTL is
refreshed to the configured value and its fields are overwritten with the
new registration data. -/
theorem c7_register_false_only_on_store_failure (st : RegistryState)
    (cid aid : String) (phone : Option String)
    (md : Option (List (String × String))) (now ttlCfg : Nat) :
    (registerCall st cid aid phone md now ttlCfg false).1 = true ∧
    (∀ fail : Bool,
        (registerCall st cid aid phone md now ttlCfg fail).1 = false →
        fail = true) ∧
    (st.enabled = true →
      ∃ e : RegEntry,
        lookupEntry (registerCall st cid aid phone md now ttlCfg false).2 cid
            = some e ∧
        e.ttl = ttlCfg ∧
        findField e.fields "agent_id" = some aid) := by
  refine ⟨?_, ?_, ?_⟩
  · by_cases he : st.enabled = false <;> simp [registerCall, he]
  · intro fail hf
    cases fail
    · exfalso
      by_cases he : st.enabled = false <;> simp [registerCall, he] at hf
    · rfl
  · intro he
    have hen : ¬ (st.enabled = false) := by simp [he]
    simp only [registerCall, hen, if_false, Bool.false_eq_true, if_neg]
    cases hlk : lookupEntry st cid with
    | none =>
        refine ⟨⟨registerFields cid aid phone now md, ttlCfg⟩, ?_, rfl, ?_⟩
        · simp [lookupEntry, hlk, find?_setEntry]
        · exact findField_registerFields cid aid phone now md
    | some e0 =>
        refine ⟨⟨hsetMerge e0.fields (registerFields cid aid phone now md), ttlCfg⟩, ?_, rfl, ?_⟩
        · simp [lookupEntry, hlk, find?_setEntry]
        · rw [findField_hsetMerge]
          · exact findField_registerFields cid aid phone now md
          · simp [registerFields]

/-- C7 witness: registering an id already present in a concrete registry
(with a healthy store) returns true, can only return false on store
failure, and refreshes the record. -/
theorem c7_register_false_only_on_store_failure_witness :
    (registerCall registryExample "call-1" "a2" none none 7 1800 false).1 = true ∧
    (∀ fail : Bool,
        (registerCall registryExample "call-1" "a2" none none 7 1800 fail).1 = false →
        fail = true) ∧
    (registryExample.enabled = true →
      ∃ e : RegEntry,
        lookupEntry (registerCall registryExample "call-1" "a2" none none 7 1800 false).2 "call-1"
            = some e ∧
        e.ttl = 1800 ∧
        findField e.fields "agent_id" = some "a2") :=
  c7_register_false_only_on_store_failure registryExample "call-1" "a2"
    none none 7 1800

end Registry

namespace Tools

/-- C8: for every tool name outside the dispatcher's capability set, tool
dispatch returns a structured result with success false and an error
message instead of raising, and the bridge (registry initialized,
connection present) sends exactly that result back into the AI session as
a function-call-output item, so the function call receives a response. -/
theorem c8_unknown_tool_gets_response :
    ∀ (crmExec : String → ToolArgs → ToolResult) (name : String)
      (args : ToolArgs),
      crmToolNames.contains name = false →
      ((executeTool crmExec name args).success = false ∧
       (executeTool crmExec name args).error = some ("Unknown tool: " ++ name) ∧
       (∀ ev : FunctionCallEvent, ev.name = name → ev.arguments = args →
          (handleFunctionCallEvent crmExec true true ev).2
            = some { itemType := "function_call_output", call_id := ev.call_id,
                     output := executeTool crmExec name args })) := by
  intro crmExec name args hname
  have hexec : executeTool crmExec name args
      = { success := false, error := some ("Unknown tool: " ++ name) } := by
    unfold executeTool
    rw [if_neg (by rw [hname]; simp)]
  refine ⟨by rw [hexec], by rw [hexec], ?_⟩
  intro ev hn ha
  simp [handleFunctionCallEvent, handleToolCall, hn, ha]

/-- C8 witness: dispatching the unknown tool name "frobnicate" with a
concrete CRM stub yields success false with an error message and the
bridge emits the function-call-output item carrying that result. -/
theorem c8_unknown_tool_gets_response_witness :
    (executeTool crmStub "frobnicate" []).success = false ∧
    (executeTool crmStub "frobnicate" []).error
        = some ("Unknown tool: " ++ "frobnicate") ∧
    (handleFunctionCallEvent crmStub true true unknownToolEvent).2
        = some { itemType := "function_call_output",
                 call_id := unknownToolEvent.call_id,
                 output := executeTool crmStub "frobnicate" [] } := by
  have h := c8_unknown_tool_gets_response crmStub "frobnicate" [] (by decide)
  exact ⟨h.1, h.2.1, h.2.2 unknownToolEvent rfl rfl⟩

end Tools

namespace Transcript

/-- The head surviving a `dropWhile` does not satisfy the predicate. -/
theorem dropWhile_head_false {p : Char → Bool} :
    ∀ (l : List Char) (c : Char) (t : List Char),
      l.dropWhile p = c :: t → p c = false := by
  intro l
  induction l with
  | nil => intro c t h; simp [List.dropWhile] at h
  | cons a rest ih =>
    intro c t h
    by_cases ha : p a
    · rw [List.dropWhile_cons, if_pos ha] at h
      exact ih c t h
    · rw [List.dropWhile_cons, if_neg ha] at h
      cases h
      simpa using ha

/-- `dropWhile` keeps the last element of any list it leaves non-empty. -/
theorem dropWhile_getLast? {p : Char → Bool} :
    ∀ l : List Char, l.dropWhile p ≠ [] →
      (l.dropWhile p).getLast? = l.getLast? := by
  intro l
  induction l with
  | nil => intro h; simp [List.dropWhile] at h
  | cons a rest ih =>
    intro h
    by_cases ha : p a
    · rw [List.dropWhile_cons, if_pos ha] at h ⊢
      have hrest : rest ≠ [] := by
        intro hr
        rw [hr] at h
        simp [List.dropWhile] at h
      rw [ih h]
      cases rest with
      | nil => exact absurd rfl hrest
      | cons b t => simp
    · rw [List.dropWhile_cons, if_neg ha]

/-- A list whose first and last characters are not whitespace is left
unchanged by a front-and-back `dropWhile`. -/
theorem strip_fix {p : Char → Bool} (l : List Char)
    (h1 : ∀ c t, l = c :: t → p c = false)
    (h2 : ∀ c t, l.reverse = c :: t → p c = false) :
    ((l.dropWhile p).reverse.dropWhile p).reverse = l := by
  have hdw : l.dropWhile p = l := by
    cases hl : l with
    | nil => rfl
    | cons c t =>
      rw [List.dropWhile_cons, if_neg (by simp [h1 c t hl])]
  rw [hdw]
  have hdw2 : l.reverse.dropWhile p = l.reverse := by
    cases hl : l.reverse with
    | nil => rfl
    | cons d t3 =>
      rw [List.dropWhile_cons, if_neg (by simp [h2 d t3 hl])]
  rw [hdw2, List.reverse_reverse]

/-- The first character of a stripped string is not whitespace. -/
theorem pyStrip_head_false (s : List Char) :
    ∀ c t, pyStrip s = c :: t → isPySpace c = false := by
  intro c t h
  unfold pyStrip at h
  have hrne : (s.dropWhile isPySpace).reverse.dropWhile isPySpace ≠ [] := by
    intro h0
    rw [h0] at h
    simp at h
  have hane : s.dropWhile isPySpace ≠ [] := by
    intro h0
    rw [h0] at hrne
    simp [List.dropWhile] at hrne
  obtain ⟨c0, t0, hct⟩ : ∃ c0 t0, s.dropWhile isPySpace = c0 :: t0 := by
    cases hA : s.dropWhile isPySpace with
    | nil => exact absurd hA hane
    | cons x y => exact ⟨x, y, rfl⟩
  have hc0 : isPySpace c0 = false := dropWhile_head_false s c0 t0 hct
  have hh : ((s.dropWhile isPySpace).reverse.dropWhile isPySpace).reverse.head?
      = some c := by
    rw [h]
    rfl
  rw [List.head?_reverse, dropWhile_getLast? _ hrne, List.getLast?_reverse,
    hct] at hh
  simp at hh
  rw [← hh]
  exact hc0

/-- The last character of a stripped string is not whitespace. -/
theorem pyStrip_reverse_head_false (s : List Char) :
    ∀ c t, (pyStrip s).reverse = c :: t → isPySpace c = false := by
  intro c t h
  unfold pyStrip at h
  rw [List.reverse_reverse] at h
  exact dropWhile_head_false _ c t h

/-- Stripping is idempotent: stored stripped text re-strips to itself. -/
theorem pyStrip_idem (s : List Char) : pyStrip (pyStrip s) = pyStrip s := by
  have h := strip_fix (p := isPySpace) (pyStrip s) (pyStrip_head_false s)
    (pyStrip_reverse_head_false s)
  simpa [pyStrip] using h

/-- C9: every transcript entry has non-empty, whitespace-stripped content:
the invariant holds for a fresh session and is preserved by every
transcript operation (user/assistant adds drop blank text and store
stripped text, flush appends only non-blank accumulated text), and flush
always resets the accumulating assistant buffer to the empty string. -/
theorem c9_transcript_entries_stripped_nonempty :
    TranscriptInv initialTranscript ∧
    (∀ (s : TranscriptState) (op : TranscriptOp),
        TranscriptInv s → TranscriptInv (applyTranscriptOp s op)) ∧
    (∀ s : TranscriptState, (flushAssistantText s).currentAssistantText = []) := by
  refine ⟨?_, ?_, ?_⟩
  · intro e he
    simp [initialTranscript] at he
  · intro s op hs
    have hadd : ∀ (role : String) (t : List Char) (e : TEntry),
        (pyStrip t).isEmpty = false →
        e ∈ s.entries ++ [{ role := role, content := pyStrip t }] →
        e.content ≠ [] ∧ pyStrip e.content = e.content := by
      intro role t e hg he
      rcases List.mem_append.mp he with he | he
      · exact hs e he
      · rcases List.mem_singleton.mp he with rfl
        refine ⟨?_, pyStrip_idem t⟩
        intro h0
        have h1 : pyStrip t = [] := h0
        rw [h1] at hg
        simp at hg
    cases op with
    | addUser t =>
      intro e he
      simp only [applyTranscriptOp, addUserTranscript] at he
      cases hg : (pyStrip t).isEmpty with
      | true => rw [if_pos hg] at he; exact hs e he
      | false => rw [if_neg (by simp [hg])] at he; exact hadd "user" t e hg he
    | addAssistant t =>
      intro e he
      simp only [applyTranscriptOp, addAssistantTranscript] at he
      cases hg : (pyStrip t).isEmpty with
      | true => rw [if_pos hg] at he; exact hs e he
      | false => rw [if_neg (by simp [hg])] at he; exact hadd "assistant" t e hg he
    | accumulate d =>
      intro e he
      simp only [applyTranscriptOp, accumulateAssistantText] at he
      exact hs e he
    | flush =>
      intro e he
      simp only [applyTranscriptOp, flushAssistantText] at he
      cases hg : (pyStrip s.currentAssistantText).isEmpty with
      | true => rw [if_pos hg] at he; exact hs e he
      | false =>
        rw [if_neg (by simp [hg])] at he
        rw [addAssistantTranscript, if_neg (by simp [hg])] at he
        exact hadd "assistant" s.currentAssistantText e hg he
  · intro s
    rfl

/-- C9 witness: the invariant-preservation statement instantiated on a
fresh session receiving a padded user transcript, plus the flush reset on
the fresh session. -/
theorem c9_transcript_entries_stripped_nonempty_witness :
    TranscriptInv (applyTranscriptOp initialTranscript
        (TranscriptOp.addUser [' ', 'h', 'i'])) ∧
    (flushAssistantText initialTranscript).currentAssistantText = [] :=
  ⟨c9_transcript_entries_stripped_nonempty.2.1 initialTranscript
      (TranscriptOp.addUser [' ', 'h', 'i']) (by decide),
   c9_transcript_entries_stripped_nonempty.2.2 initialTranscript⟩

/-- C10: when the formatted transcript is empty or whitespace-only,
persisting it is a no-op — no call-record lookup is issued and the stored
records are unchanged, so a blank transcript is never written over an
existing record. -/
theorem c10_blank_transcript_never_saved :
    ∀ (records : List CallRecord) (callSid : String) (t : List Char),
      pyStrip t = [] →
      saveTranscriptToCallRecord records callSid t
        = { records := records, outcome := SaveOutcome.skippedEmpty,
            lookups := 0 } := by
  intro records callSid t h
  simp [saveTranscriptToCallRecord, h]

/-- C10 witness: saving a whitespace-only transcript against a stored
record with provider call id "CA1" leaves the record (and its old
transcript) untouched, with zero lookups. -/
theorem c10_blank_transcript_never_saved_witness :
    saveTranscriptToCallRecord callRecordsExample "CA1" [' ', '\n']
      = { records := callRecordsExample, outcome := SaveOutcome.skippedEmpty,
          lookups := 0 } :=
  c10_blank_transcript_never_saved callRecordsExample "CA1" [' ', '\n']
    (by decide)

end Transcript

end VoiceNoob
